import Mathlib

/-!
Verification of `py-xray-vls` (src/app.py): a shallow embedding of the
environment detection, binary-fetcher architecture selection, config builder,
child-process launch sequence, link formatting, cleanup routine and the
monitoring loop, together with theorems settling the specification claims.
-/

namespace PyXrayVls

set_option maxRecDepth 8192

/-- An environment-variable mapping (`os.environ`): key to optional value. -/
abbrev Env : Type := String → Option String

/-- The keys of the `indicators` dict in `PterodactylDetector.detect_environment`
(src/app.py lines 43-47), in dict-literal order. -/
def indicatorKeys : List String := ["SERVER_MEMORY", "SERVER_IP", "SERVER_PORT"]

/-- `PterodactylDetector.detect_environment` (src/app.py lines 41-53):
`detected = {key: os.environ.get(key) for key in indicators if os.environ.get(key)}`
keeps a key only when `os.environ.get(key)` is truthy, i.e. present and
non-empty; returns `len(detected) > 0` and the detected pairs. -/
def detect_environment (env : Env) : Bool × List (String × String) :=
  let detected := indicatorKeys.filterMap (fun k =>
    match env k with
    | some v => if v = "" then none else some (k, v)
    | none => none)
  (decide (0 < detected.length), detected)

/-- The value of a decimal digit character. -/
def digitVal (c : Char) : Option Nat :=
  if 48 ≤ c.toNat ∧ c.toNat ≤ 57 then some (c.toNat - 48) else none

/-- A non-empty all-digit character list read as a decimal natural. -/
def decNat (cs : List Char) : Option Nat :=
  cs.foldl
    (fun acc c =>
      match acc, digitVal c with
      | some n, some d => some (10 * n + d)
      | _, _ => none)
    (if cs.isEmpty then none else some 0)

/-- Python `int(s)` on an optionally-signed decimal string: `some` of the
value when it parses, `none` for the `ValueError` path (surrounding
whitespace and underscore separators, which Python also accepts, do not occur
in the inputs this program reads). -/
def pyInt (s : String) : Option Int :=
  match s.data with
  | '-' :: rest => (decNat rest).map (fun n => -(n : Int))
  | '+' :: rest => (decNat rest).map (fun n => (n : Int))
  | cs => (decNat cs).map (fun n => (n : Int))

/-- `int(os.environ.get('SERVER_PORT', 0))` (src/app.py line 237): the default
`0` is already an int; a present value goes through `int`. `none` models an
uncaught `ValueError`. -/
def server_port_value (env : Env) : Option Int :=
  match env "SERVER_PORT" with
  | none => some 0
  | some s => pyInt s

/-! ## Config builder (`MinimalXray.create_vless_config`, src/app.py 132-181) -/

/-- One element of `settings.clients`. -/
structure XrayClient where
  id : String
  level : Nat
deriving DecidableEq

/-- The `settings` block of an inbound. -/
structure InboundSettings where
  clients : List XrayClient
  decryption : String
deriving DecidableEq

/-- The `wsSettings` block: `path` and the single `Host` header. -/
structure WsSettings where
  path : String
  headersHost : String
deriving DecidableEq

/-- The `tlsSettings` block. -/
structure TlsSettings where
  serverName : String
  allowInsecure : Bool
deriving DecidableEq

/-- The `streamSettings` block; `tlsSettings` is present only on the TLS inbound. -/
structure StreamSettings where
  network : String
  security : String
  tlsSettings : Option TlsSettings
  wsSettings : WsSettings
deriving DecidableEq

/-- One entry of the `inbounds` array. -/
structure Inbound where
  port : Int
  listen : String
  protocol : String
  settings : InboundSettings
  streamSettings : StreamSettings
deriving DecidableEq

/-- One entry of the `outbounds` array (`settings` is the empty dict). -/
structure Outbound where
  protocol : String
deriving DecidableEq

/-- The `policy.levels."0"` block. -/
structure PolicyLevel where
  bufferSize : Nat
  connIdle : Nat
deriving DecidableEq

/-- The whole config document returned by `create_vless_config`. -/
structure XrayConfig where
  logLoglevel : String
  inbounds : List Inbound
  outbounds : List Outbound
  policyLevel0 : PolicyLevel
deriving DecidableEq

/-- `MinimalXray.create_vless_config(uuid_str, path, domain, direct_port, cdn_port)`
(src/app.py lines 132-181): a single dict literal built from the five
parameters — a direct plain-WS inbound on `direct_port` and a TLS-WS CDN
inbound on `cdn_port`, one freedom outbound, and the policy block. -/
def create_vless_config (uuid_str path domain : String)
    (direct_port cdn_port : Int) : XrayConfig :=
  { logLoglevel := "error"
    inbounds := [
      { port := direct_port
        listen := "0.0.0.0"
        protocol := "vless"
        settings := { clients := [{ id := uuid_str, level := 0 }], decryption := "none" }
        streamSettings :=
          { network := "ws"
            security := "none"
            tlsSettings := none
            wsSettings := { path := path, headersHost := domain } } },
      { port := cdn_port
        listen := "0.0.0.0"
        protocol := "vless"
        settings := { clients := [{ id := uuid_str, level := 0 }], decryption := "none" }
        streamSettings :=
          { network := "ws"
            security := "tls"
            tlsSettings := some { serverName := domain, allowInsecure := false }
            wsSettings := { path := path, headersHost := domain } } }]
    outbounds := [{ protocol := "freedom" }]
    policyLevel0 := { bufferSize := 256, connIdle := 120 } }

/-- A record of ambient effectful state threaded through an instrumented run:
the list of I/O events performed so far. -/
structure AmbientState where
  events : List String
deriving DecidableEq

/-- Effect-instrumented run of `create_vless_config`: the source body
(src/app.py lines 132-181) is a single dict literal mentioning only the five
parameters — it reads no ambient state and performs no I/O, so the embedding
ignores the ambient state and returns it unchanged. -/
def create_vless_config_run (amb : AmbientState) (uuid_str path domain : String)
    (direct_port cdn_port : Int) : XrayConfig × AmbientState :=
  (create_vless_config uuid_str path domain direct_port cdn_port, amb)

/-- Modelled from the spec: the single-listener script variant's Config
Builder is not under src/ (src/app.py is the dual-listener near-duplicate);
per the spec, "Two listener-count variants exist (single CDN-only listener vs.
direct+CDN pair)" and the builder is a pure function producing an `inbounds`
array — here with exactly one CDN-style VLESS WebSocket listener on the given
port, whose `wsSettings.path` is the given path. -/
def create_vless_config_single (uuid_str path domain : String)
    (port : Int) : XrayConfig :=
  { logLoglevel := "error"
    inbounds := [
      { port := port
        listen := "0.0.0.0"
        protocol := "vless"
        settings := { clients := [{ id := uuid_str, level := 0 }], decryption := "none" }
        streamSettings :=
          { network := "ws"
            security := "tls"
            tlsSettings := some { serverName := domain, allowInsecure := false }
            wsSettings := { path := path, headersHost := domain } } }]
    outbounds := [{ protocol := "freedom" }]
    policyLevel0 := { bufferSize := 256, connIdle := 120 } }

/-! ## Binary fetcher architecture selection (`MinimalXray.download_xray`,
src/app.py lines 71-75) -/

/-- The `arch_map` dict literal (src/app.py line 73). -/
def arch_map (s : String) : Option String :=
  if s = "x86_64" then some "amd64"
  else if s = "x64" then some "amd64"
  else if s = "aarch64" then some "arm64"
  else if s = "arm64" then some "arm64"
  else none

/-- ASCII lowercasing of one character, as `str.lower()` acts on the ASCII
range (`platform.machine()` values are ASCII). -/
def asciiLowerChar (c : Char) : Char :=
  if 65 ≤ c.toNat ∧ c.toNat ≤ 90 then Char.ofNat (c.toNat + 32) else c

/-- Python `machine.lower()` over an ASCII string. -/
def pyLower (s : String) : String := String.mk (s.data.map asciiLowerChar)

/-- `arch = arch_map.get(platform.machine().lower(), 'amd64')`
(src/app.py line 74). -/
def xray_arch (machine : String) : String :=
  (arch_map (pyLower machine)).getD "amd64"

/-- `filename = "Xray-linux-64.zip" if arch == 'amd64' else
"Xray-linux-arm64-v8a.zip"` (src/app.py line 75). -/
def xray_filename (machine : String) : String :=
  if xray_arch machine = "amd64" then "Xray-linux-64.zip"
  else "Xray-linux-arm64-v8a.zip"

/-! ## `VLESSXrayProxy.start` (src/app.py lines 223-284) -/

/-- Outcomes of the effectful steps `start` performs, supplied by the outside
world: success of `download_xray`, success of `extract_xray`, existence of the
extracted `./xray/xray`, and the `process.poll()` result observed after the
two-second grace sleep (`none` = still running, `some c` = exited with code `c`). -/
structure World where
  downloadOk : Bool
  extractOk : Bool
  xrayExists : Bool
  pollAfterLaunch : Option Int
deriving DecidableEq

/-- What one call of `start` did: its boolean return value, whether the
download step was invoked, whether the child was launched, and how many times
it was launched. -/
structure StartOutcome where
  result : Bool
  downloadAttempted : Bool
  launched : Bool
  launchCount : Nat
deriving DecidableEq

/-- The grace delay `time.sleep(2)` between launch and the liveness recheck
(src/app.py line 277), in seconds. -/
def grace_delay_seconds : Nat := 2

/-- `VLESSXrayProxy.start` (src/app.py lines 223-284) as a function of the
environment and the world: abort when the environment is not detected; abort
when `int(os.environ.get('SERVER_PORT', 0))` is `0` (both before downloading);
then download, extract, check the binary, write the config, launch the child,
sleep the grace delay and poll — if the child already exited, return `False`.
`none` models an uncaught exception from `int`. -/
def start (env : Env) (w : World) : Option StartOutcome :=
  if !(detect_environment env).1 then
    some { result := false, downloadAttempted := false, launched := false, launchCount := 0 }
  else
    match server_port_value env with
    | none => none
    | some direct_port =>
      if direct_port = 0 then
        some { result := false, downloadAttempted := false, launched := false, launchCount := 0 }
      else if !w.downloadOk then
        some { result := false, downloadAttempted := true, launched := false, launchCount := 0 }
      else if !w.extractOk then
        some { result := false, downloadAttempted := true, launched := false, launchCount := 0 }
      else if !w.xrayExists then
        some { result := false, downloadAttempted := true, launched := false, launchCount := 0 }
      else if (w.pollAfterLaunch).isSome then
        some { result := false, downloadAttempted := true, launched := true, launchCount := 1 }
      else
        some { result := true, downloadAttempted := true, launched := true, launchCount := 1 }

/-! ## Child environment (src/app.py lines 266-268) -/

/-- Python dict item assignment `m[k] = v` on an environment mapping,
returning the updated mapping. -/
def dictSet (m : Env) (k v : String) : Env :=
  fun q => if q = k then some v else m q

/-- `env = os.environ.copy(); env['GOMEMLIMIT'] = '30MiB'; env['GOGC'] = '30'`
(src/app.py lines 266-268): the child environment is a copy of the parent's
with the two overrides applied in source order. -/
def child_env (parent : Env) : Env :=
  dictSet (dictSet parent "GOMEMLIMIT" "30MiB") "GOGC" "30"

/-! ## Link formatting (`VLESSXrayProxy.display_info`, src/app.py 286-315)

Python strings are encoded to UTF-8 bytes before percent-escaping, so links
are modelled as byte strings: `List Nat` with every element below 256. -/

/-- The bytes of an ASCII string literal. -/
def strBytes (s : String) : List Nat := s.data.map Char.toNat

/-- Whether `urllib.parse.quote` with its default `safe='/'` leaves byte `b`
literal: ASCII letters, digits, `_ . - ~` (always safe) and `/` (default safe). -/
def quote_safe (b : Nat) : Bool :=
  (65 ≤ b && b ≤ 90) || (97 ≤ b && b ≤ 122) || (48 ≤ b && b ≤ 57) ||
  b == 95 || b == 46 || b == 45 || b == 126 || b == 47

/-- The byte of an uppercase hex digit for `d < 16`, as `quote` emits. -/
def hexDigitUpper (d : Nat) : Nat := if d < 10 then 48 + d else 55 + d

/-- `urllib.parse.quote` on one byte: literal when safe, else `%XX`. -/
def quoteByte (b : Nat) : List Nat :=
  if quote_safe b then [b] else [37, hexDigitUpper (b / 16), hexDigitUpper (b % 16)]

/-- `urllib.parse.quote` over a byte string. -/
def quoteBytes : List Nat → List Nat
  | [] => []
  | b :: rest => quoteByte b ++ quoteBytes rest

/-- The value of a hex-digit byte (either case, as `unquote` accepts). -/
def hexVal (c : Nat) : Option Nat :=
  if 48 ≤ c && c ≤ 57 then some (c - 48)
  else if 65 ≤ c && c ≤ 70 then some (c - 55)
  else if 97 ≤ c && c ≤ 102 then some (c - 87)
  else none

/-- `urllib.parse.unquote` over a byte string: a `%` followed by two hex
digits decodes to the corresponding byte; an ill-formed `%` stays literal. -/
def unquoteBytes : List Nat → List Nat
  | [] => []
  | b :: h :: l :: rest =>
    if b = 37 then
      match hexVal h, hexVal l with
      | some x, some y => (16 * x + y) :: unquoteBytes rest
      | _, _ => 37 :: unquoteBytes (h :: l :: rest)
    else b :: unquoteBytes (h :: l :: rest)
  | b :: rest => b :: unquoteBytes rest

/-- The `direct_link` f-string (src/app.py lines 292-295); its adjacent
literal pieces are one literal, so one chunking is chosen freely. -/
def direct_link (uuid_str ip : List Nat) (direct_port : Nat)
    (domain path : List Nat) : List Nat :=
  strBytes "vless://" ++ uuid_str ++ strBytes "@" ++ ip ++ strBytes ":" ++
  strBytes (toString direct_port) ++
  strBytes "?encryption=none&security=none&type=ws&host=" ++ quoteBytes domain ++
  strBytes "&path=" ++ quoteBytes path ++ strBytes "#VLESS-Xray-Direct"

/-- The `cdn_link` f-string (src/app.py lines 301-305): the authority host is
the raw domain, and a `sni` query value is added. -/
def cdn_link (uuid_str : List Nat) (cdn_port : Nat)
    (domain path : List Nat) : List Nat :=
  strBytes "vless://" ++ uuid_str ++ strBytes "@" ++ domain ++ strBytes ":" ++
  strBytes (toString cdn_port) ++
  strBytes "?encryption=none&security=tls&type=ws&host=" ++ quoteBytes domain ++
  strBytes "&path=" ++ quoteBytes path ++ strBytes "&sni=" ++ quoteBytes domain ++
  strBytes "#VLESS-Xray-CDN"

/-- The spec's link schema, written from its words:
`scheme://<id>@<host>:<port>?encryption=none&security=<none|tls>&type=ws&host=<domain>&path=<escaped-path>[&sni=<domain>]#<label>`
with the query values percent-escaped. -/
def link_schema (id host : List Nat) (port : Nat) (security : List Nat)
    (domain path : List Nat) (sni : Option (List Nat)) (label : List Nat) : List Nat :=
  strBytes "vless://" ++ id ++ strBytes "@" ++ host ++ strBytes ":" ++
  strBytes (toString port) ++
  strBytes "?encryption=none&security=" ++ security ++
  strBytes "&type=ws&host=" ++ quoteBytes domain ++
  strBytes "&path=" ++ quoteBytes path ++
  (match sni with
   | some s => strBytes "&sni=" ++ quoteBytes s
   | none => []) ++
  strBytes "#" ++ label

/-! ## Cleanup (`VLESSXrayProxy.cleanup`, src/app.py 203-221) and `main`
(src/app.py 324-341) -/

/-- A file system as a predicate: which paths exist. -/
abbrev FileSys : Type := String → Bool

/-- `if os.path.exists(p): os.remove(p)` (and likewise the guarded
`shutil.rmtree` for a directory): remove `p` when it exists. -/
def removeIfExists (fs : FileSys) (p : String) : FileSys :=
  if fs p then fun q => if q = p then false else fs q else fs

/-- The four artifact paths `cleanup` removes (src/app.py lines 211-219). -/
def artifactPaths : List String :=
  ["xray.zip", "config.json", "vless_xray_links.txt", "xray"]

/-- The file-system effect of `VLESSXrayProxy.cleanup` (src/app.py 203-221):
the guarded removals of `xray.zip`, `config.json`, `vless_xray_links.txt` and
the `xray` directory, in source order. -/
def cleanup_fs (fs : FileSys) : FileSys :=
  removeIfExists (removeIfExists (removeIfExists
    (removeIfExists fs "xray.zip") "config.json") "vless_xray_links.txt") "xray"

/-- The ways a run of `main` (src/app.py 324-341) can end. -/
inductive ExitPath where
  | startFailed
  | monitorExit
  | interrupted
  | signalled
deriving DecidableEq

/-- The observable actions of `main` that the claims speak about. -/
inductive Action where
  | startCall
  | monitorLoop
  | cleanupCall
  | processExit
deriving DecidableEq

/-- The action trace of `main` (src/app.py 324-341) on each exit path:
a failed `start` falls to `proxy.cleanup()`; a detected unexpected exit breaks
the loop and reaches `proxy.cleanup()`; `KeyboardInterrupt` is swallowed and
reaches `proxy.cleanup()`; the signal handler (src/app.py 194-197) runs
`self.cleanup()` and then `sys.exit(0)`. -/
def main_trace : ExitPath → List Action
  | .startFailed => [.startCall, .cleanupCall]
  | .monitorExit => [.startCall, .monitorLoop, .cleanupCall]
  | .interrupted => [.startCall, .monitorLoop, .cleanupCall]
  | .signalled => [.startCall, .monitorLoop, .cleanupCall, .processExit]

/-- The monitoring loop of `main` (src/app.py 330-335) over a finite prefix of
poll observations, one per 30-second tick (`none` = child alive, `some c` =
child exited with code `c`). Returns the number of child restarts the loop
performed and whether it left the loop: the body is
`sleep(30); gc.collect(2); if proxy.process and proxy.process.poll() is not
None: break` — on an observed exit it breaks at once and relaunches nothing. -/
def monitor_loop : List (Option Int) → Nat × Bool
  | [] => (0, false)
  | none :: rest => monitor_loop rest
  | some _ :: _ => (0, true)

/-- Concrete environment with only `SERVER_PORT` set, to `"25000"`. -/
def env_port25000 : Env := fun k => if k = "SERVER_PORT" then some "25000" else none

/-- Concrete environment with only `SERVER_MEMORY` set. -/
def env_mem_only : Env := fun k => if k = "SERVER_MEMORY" then some "512" else none

/-! ## Helper lemmas -/

theorem hexVal_hexDigitUpper : ∀ d : Nat, d < 16 → hexVal (hexDigitUpper d) = some d := by
  decide

theorem unquoteBytes_cons_ne (b : Nat) (hb : b ≠ 37) (cs : List Nat) :
    unquoteBytes (b :: cs) = b :: unquoteBytes cs := by
  cases cs with
  | nil => simp [unquoteBytes]
  | cons c cs2 =>
    cases cs2 with
    | nil => simp [unquoteBytes]
    | cons d rest => simp [unquoteBytes, hb]

theorem unquote_quoteByte (b : Nat) (hb : b < 256) (cs : List Nat) :
    unquoteBytes (quoteByte b ++ cs) = b :: unquoteBytes cs := by
  by_cases hs : quote_safe b = true
  · have hb37 : b ≠ 37 := by
      intro h; rw [h] at hs; exact absurd hs (by decide)
    rw [quoteByte, if_pos hs, List.cons_append, List.nil_append,
      unquoteBytes_cons_ne b hb37 cs]
  · have h1 : hexVal (hexDigitUpper (b / 16)) = some (b / 16) :=
      hexVal_hexDigitUpper _ (by omega)
    have h2 : hexVal (hexDigitUpper (b % 16)) = some (b % 16) :=
      hexVal_hexDigitUpper _ (by omega)
    rw [quoteByte, if_neg hs]
    show unquoteBytes (37 :: hexDigitUpper (b / 16) :: hexDigitUpper (b % 16) :: cs) =
      b :: unquoteBytes cs
    simp only [unquoteBytes, if_pos, h1, h2]
    have hdm : 16 * (b / 16) + b % 16 = b := by omega
    rw [hdm]

theorem unquote_quote_roundtrip (s : List Nat) (h : ∀ b ∈ s, b < 256) :
    unquoteBytes (quoteBytes s) = s := by
  induction s with
  | nil => rfl
  | cons b rest ih =>
    show unquoteBytes (quoteByte b ++ quoteBytes rest) = b :: rest
    rw [unquote_quoteByte b (h b (List.mem_cons_self b rest)) (quoteBytes rest),
      ih (fun x hx => h x (List.mem_cons_of_mem b hx))]

theorem seg_direct (t : List Nat) :
    strBytes "?encryption=none&security=" ++ (strBytes "none" ++
      (strBytes "&type=ws&host=" ++ t)) =
    strBytes "?encryption=none&security=none&type=ws&host=" ++ t := by
  have h : strBytes "?encryption=none&security=" ++ strBytes "none" ++
      strBytes "&type=ws&host=" =
      strBytes "?encryption=none&security=none&type=ws&host=" := by decide
  rw [← h]
  simp [List.append_assoc]

theorem seg_label_direct :
    strBytes "#" ++ strBytes "VLESS-Xray-Direct" = strBytes "#VLESS-Xray-Direct" := by
  decide

theorem seg_cdn (t : List Nat) :
    strBytes "?encryption=none&security=" ++ (strBytes "tls" ++
      (strBytes "&type=ws&host=" ++ t)) =
    strBytes "?encryption=none&security=tls&type=ws&host=" ++ t := by
  have h : strBytes "?encryption=none&security=" ++ strBytes "tls" ++
      strBytes "&type=ws&host=" =
      strBytes "?encryption=none&security=tls&type=ws&host=" := by decide
  rw [← h]
  simp [List.append_assoc]

theorem seg_label_cdn :
    strBytes "#" ++ strBytes "VLESS-Xray-CDN" = strBytes "#VLESS-Xray-CDN" := by
  decide

theorem detect_of_port (env : Env) (s : String) (hs : env "SERVER_PORT" = some s)
    (hne : s ≠ "") : (detect_environment env).1 = true := by
  have hmem : ("SERVER_PORT", s) ∈ indicatorKeys.filterMap (fun k =>
      match env k with
      | some v => if v = "" then none else some (k, v)
      | none => none) := by
    apply List.mem_filterMap.mpr
    exact ⟨"SERVER_PORT", by simp [indicatorKeys], by simp [hs, hne]⟩
  simp only [detect_environment, decide_eq_true_eq]
  exact List.length_pos.mpr (List.ne_nil_of_mem hmem)

theorem removeIfExists_self_false (fs : FileSys) (p : String) :
    removeIfExists fs p p = false := by
  unfold removeIfExists
  split
  · simp
  · rename_i h
    simp only [Bool.not_eq_true] at h
    exact h

theorem removeIfExists_eq_false (fs : FileSys) (p q : String) (h : fs q = false) :
    removeIfExists fs p q = false := by
  unfold removeIfExists
  split
  · by_cases hq : q = p <;> simp [hq, h]
  · exact h

/-! ## Claim theorems -/

/-- Claim C1, counterexample: on the concrete trace whose very first poll
observes an unexpected exit — when the accumulated restart count is 0, below
the ceiling 5 — the monitoring loop of `main` performs no restart (the count
stays 0 rather than being incremented) and leaves the run loop at once, so the
claimed restart-below-ceiling behaviour is false on the code. -/
theorem claim_C1_counterexample :
    (monitor_loop [some 1]).2 = true ∧ (monitor_loop [some 1]).1 = 0 ∧
    ¬(monitor_loop [some 1]).1 = 1 := by
  decide

/-- Claim C1, amended: in the monitoring loop of `main`, the child is never
restarted (the restart count is constantly 0, hence never decreases), the loop
is left exactly when some poll observes an exit, and the first unexpected exit
already ends the loop — after exactly 1 unexpected exit, not ceiling+1. -/
theorem claim_C1 :
    (∀ polls : List (Option Int), (monitor_loop polls).1 = 0) ∧
    (∀ polls : List (Option Int),
      (monitor_loop polls).2 = true ↔ polls.any (fun p => p.isSome) = true) ∧
    (∀ (pre : List (Option Int)) (c : Int) (rest : List (Option Int)),
      (∀ x ∈ pre, x = none) → monitor_loop (pre ++ some c :: rest) = (0, true)) := by
  refine ⟨?_, ?_, ?_⟩
  · intro polls
    induction polls with
    | nil => rfl
    | cons p rest ih => cases p <;> simp [monitor_loop, ih]
  · intro polls
    induction polls with
    | nil => simp [monitor_loop]
    | cons p rest ih => cases p <;> simp [monitor_loop, ih]
  · intro pre c rest h
    induction pre with
    | nil => rfl
    | cons x pre2 ih =>
      have hx : x = none := h x (List.mem_cons_self x pre2)
      subst hx
      show monitor_loop (none :: (pre2 ++ some c :: rest)) = (0, true)
      rw [monitor_loop]
      exact ih (fun y hy => h y (List.mem_cons_of_mem none hy))

/-- Claim C1, witness for the amended theorem: one alive tick followed by an
observed exit ends the loop with no restart performed. -/
theorem claim_C1_witness : monitor_loop [none, some 1] = (0, true) :=
  claim_C1.2.2 [none] 1 [] (by simp)

/-- Claim C2 (modelled from the spec for the single-listener variant): in an
environment with `SERVER_PORT=25000` — which also makes the host environment
detected — the parsed port is 25000 and the single-listener Config Builder
produces a document whose `inbounds` array has length 1, whose single entry
has port 25000 and protocol `vless`, and whose `wsSettings.path` equals the
generated path. -/
theorem claim_C2 (env : Env) (uuid_str path domain : String)
    (h : env "SERVER_PORT" = some "25000") :
    (detect_environment env).1 = true ∧
    server_port_value env = some 25000 ∧
    (create_vless_config_single uuid_str path domain 25000).inbounds.length = 1 ∧
    ∀ i ∈ (create_vless_config_single uuid_str path domain 25000).inbounds,
      i.port = 25000 ∧ i.protocol = "vless" ∧ i.streamSettings.wsSettings.path = path := by
  refine ⟨detect_of_port env "25000" h (by decide), ?_, rfl, ?_⟩
  · unfold server_port_value
    rw [h]
    decide
  · intro i hi
    simp only [create_vless_config_single, List.mem_singleton] at hi
    subst hi
    exact ⟨rfl, rfl, rfl⟩

/-- Claim C2, witness: the concrete environment that sets only
`SERVER_PORT=25000`, with concrete identity, path and domain. -/
theorem claim_C2_witness :
    (detect_environment env_port25000).1 = true ∧
    server_port_value env_port25000 = some 25000 ∧
    (create_vless_config_single "id0" "/ws" "cdn.example.com" 25000).inbounds.length = 1 ∧
    ∀ i ∈ (create_vless_config_single "id0" "/ws" "cdn.example.com" 25000).inbounds,
      i.port = 25000 ∧ i.protocol = "vless" ∧ i.streamSettings.wsSettings.path = "/ws" :=
  claim_C2 env_port25000 "id0" "/ws" "cdn.example.com" (by decide)

/-- Claim C3: when none of `SERVER_MEMORY`, `SERVER_IP`, `SERVER_PORT` is set,
`start` returns `False` with the download step never invoked (and no child
launched). -/
theorem claim_C3 (env : Env) (w : World)
    (h1 : env "SERVER_MEMORY" = none) (h2 : env "SERVER_IP" = none)
    (h3 : env "SERVER_PORT" = none) :
    start env w =
      some { result := false, downloadAttempted := false, launched := false,
             launchCount := 0 } := by
  have hd : (detect_environment env).1 = false := by
    simp [detect_environment, indicatorKeys, h1, h2, h3]
  simp [start, hd]

/-- Claim C3, witness: the empty environment. -/
theorem claim_C3_witness :
    start (fun _ => none)
      { downloadOk := true, extractOk := true, xrayExists := true,
        pollAfterLaunch := none } =
    some { result := false, downloadAttempted := false, launched := false,
           launchCount := 0 } :=
  claim_C3 (fun _ => none) _ rfl rfl rfl

/-- Claim C4: the Config Builder is pure and deterministic — under any two
ambient states, identical inputs give equal documents, the ambient state is
returned unchanged (no I/O is performed), and any one serialization function
maps the two outputs to identical bytes. -/
theorem claim_C4 (amb1 amb2 : AmbientState) (uuid_str path domain : String)
    (direct_port cdn_port : Int) :
    (create_vless_config_run amb1 uuid_str path domain direct_port cdn_port).1 =
      (create_vless_config_run amb2 uuid_str path domain direct_port cdn_port).1 ∧
    (create_vless_config_run amb1 uuid_str path domain direct_port cdn_port).2 = amb1 ∧
    ∀ serialize : XrayConfig → String,
      serialize (create_vless_config_run amb1 uuid_str path domain direct_port cdn_port).1 =
        serialize (create_vless_config_run amb2 uuid_str path domain direct_port cdn_port).1 :=
  ⟨rfl, rfl, fun _ => rfl⟩

/-- Claim C5: `cleanup` leaves none of the four artifact paths (`xray.zip`,
`config.json`, `vless_xray_links.txt`, the `xray` directory) existing, on any
starting file system; and every exit path of `main` — start failure, detected
unexpected exit, interrupt during the loop, and the signal handler — runs
`cleanup`. -/
theorem claim_C5 :
    (∀ fs : FileSys, ∀ p ∈ artifactPaths, cleanup_fs fs p = false) ∧
    (∀ e : ExitPath, Action.cleanupCall ∈ main_trace e) := by
  constructor
  · intro fs p hp
    simp only [artifactPaths, List.mem_cons, List.not_mem_nil, or_false] at hp
    unfold cleanup_fs
    rcases hp with h | h | h | h <;> subst h
    · exact removeIfExists_eq_false _ _ _ (removeIfExists_eq_false _ _ _
        (removeIfExists_eq_false _ _ _ (removeIfExists_self_false _ _)))
    · exact removeIfExists_eq_false _ _ _ (removeIfExists_eq_false _ _ _
        (removeIfExists_self_false _ _))
    · exact removeIfExists_eq_false _ _ _ (removeIfExists_self_false _ _)
    · exact removeIfExists_self_false _ _
  · intro e
    cases e <;> decide

/-- Claim C5, witness: on a file system where every path exists, cleanup
removes `config.json`; and the signal-handler exit path runs cleanup. -/
theorem claim_C5_witness :
    cleanup_fs (fun _ => true) "config.json" = false ∧
    Action.cleanupCall ∈ main_trace ExitPath.signalled :=
  ⟨claim_C5.1 (fun _ => true) "config.json" (by decide),
   claim_C5.2 ExitPath.signalled⟩

/-- Claim C6: both generated links equal the spec's fixed schema — direct with
`security=none` and no `sni`, CDN with `security=tls` and `sni=<domain>` —
with the `host`, `path` and `sni` query values percent-escaped by `quote`, and
percent-decoding the escaped path and domain reproduces the original byte
strings exactly. -/
theorem claim_C6 (uuid_str ip : List Nat) (port : Nat) (domain path : List Nat)
    (hd : ∀ b ∈ domain, b < 256) (hp : ∀ b ∈ path, b < 256) :
    direct_link uuid_str ip port domain path =
      link_schema uuid_str ip port (strBytes "none") domain path none
        (strBytes "VLESS-Xray-Direct") ∧
    cdn_link uuid_str port domain path =
      link_schema uuid_str domain port (strBytes "tls") domain path (some domain)
        (strBytes "VLESS-Xray-CDN") ∧
    unquoteBytes (quoteBytes path) = path ∧
    unquoteBytes (quoteBytes domain) = domain := by
  refine ⟨?_, ?_, unquote_quote_roundtrip path hp, unquote_quote_roundtrip domain hd⟩
  · unfold direct_link link_schema
    simp only [List.append_assoc, List.nil_append]
    rw [seg_direct, seg_label_direct]
  · unfold cdn_link link_schema
    simp only [List.append_assoc, List.nil_append]
    rw [seg_cdn, seg_label_cdn]

/-- Claim C6, witness: a concrete identity, host, port, domain and a path
containing a space and non-ASCII-safe bytes. -/
theorem claim_C6_witness :
    direct_link (strBytes "id1") (strBytes "203.0.113.9") 25000
        (strBytes "cloudflare.182682.xyz") (strBytes "/a b?c") =
      link_schema (strBytes "id1") (strBytes "203.0.113.9") 25000 (strBytes "none")
        (strBytes "cloudflare.182682.xyz") (strBytes "/a b?c") none
        (strBytes "VLESS-Xray-Direct") ∧
    cdn_link (strBytes "id1") 25000 (strBytes "cloudflare.182682.xyz")
        (strBytes "/a b?c") =
      link_schema (strBytes "id1") (strBytes "cloudflare.182682.xyz") 25000
        (strBytes "tls") (strBytes "cloudflare.182682.xyz") (strBytes "/a b?c")
        (some (strBytes "cloudflare.182682.xyz")) (strBytes "VLESS-Xray-CDN") ∧
    unquoteBytes (quoteBytes (strBytes "/a b?c")) = strBytes "/a b?c" ∧
    unquoteBytes (quoteBytes (strBytes "cloudflare.182682.xyz")) =
      strBytes "cloudflare.182682.xyz" :=
  claim_C6 (strBytes "id1") (strBytes "203.0.113.9") 25000
    (strBytes "cloudflare.182682.xyz") (strBytes "/a b?c") (by decide) (by decide)

/-- Claim C7: the child environment is the parent environment with exactly the
two keys `GOMEMLIMIT` and `GOGC` overridden (to `30MiB` and `30`), and every
other key looks up to exactly the parent's value — the parent mapping itself
is passed in unchanged by the purely functional construction. -/
theorem claim_C7 (parent : Env) :
    child_env parent "GOMEMLIMIT" = some "30MiB" ∧
    child_env parent "GOGC" = some "30" ∧
    ∀ k : String, k ≠ "GOMEMLIMIT" → k ≠ "GOGC" → child_env parent k = parent k := by
  refine ⟨?_, ?_, ?_⟩
  · simp [child_env, dictSet]
  · simp [child_env, dictSet]
  · intro k hk1 hk2
    simp only [child_env, dictSet]
    rw [if_neg hk2, if_neg hk1]

/-- Claim C7, witness: over the empty parent environment, the two overrides
are present and an unrelated key (`PATH`) is unchanged. -/
theorem claim_C7_witness :
    child_env (fun _ => none) "GOMEMLIMIT" = some "30MiB" ∧
    child_env (fun _ => none) "GOGC" = some "30" ∧
    child_env (fun _ => none) "PATH" = (fun (_ : String) => (none : Option String)) "PATH" :=
  ⟨(claim_C7 (fun _ => none)).1, (claim_C7 (fun _ => none)).2.1,
   (claim_C7 (fun _ => none)).2.2 "PATH" (by decide) (by decide)⟩

/-- Claim C8: whenever `start` reaches the launch (the child was launched) and
the liveness check after the two-second grace delay observes that the child
already exited, `start` returns `False` and the launch was attempted exactly
once — no retry at this layer. -/
theorem claim_C8 (env : Env) (w : World) (o : StartOutcome) (c : Int)
    (ho : start env w = some o) (hl : o.launched = true)
    (hpoll : w.pollAfterLaunch = some c) :
    o.result = false ∧ o.launchCount = 1 ∧ grace_delay_seconds = 2 := by
  unfold start at ho
  split at ho
  · simp only [Option.some.injEq] at ho
    subst ho
    simp at hl
  · split at ho
    · exact absurd ho (by simp)
    · split at ho
      · simp only [Option.some.injEq] at ho
        subst ho
        simp at hl
      · split at ho
        · simp only [Option.some.injEq] at ho
          subst ho
          simp at hl
        · split at ho
          · simp only [Option.some.injEq] at ho
            subst ho
            simp at hl
          · split at ho
            · simp only [Option.some.injEq] at ho
              subst ho
              simp at hl
            · split at ho
              · simp only [Option.some.injEq] at ho
                subst ho
                exact ⟨rfl, rfl, rfl⟩
              · rename_i hps
                exact absurd (by simp [hpoll] : w.pollAfterLaunch.isSome = true) hps

/-- Claim C8, witness: with `SERVER_PORT=25000`, all preliminary steps
succeeding and the post-grace poll observing exit code 1, `start` returns the
failure outcome after a single launch. -/
theorem claim_C8_witness :
    StartOutcome.result
      { result := false, downloadAttempted := true, launched := true,
        launchCount := 1 } = false ∧
    StartOutcome.launchCount
      { result := false, downloadAttempted := true, launched := true,
        launchCount := 1 } = 1 ∧
    grace_delay_seconds = 2 :=
  claim_C8 env_port25000
    { downloadOk := true, extractOk := true, xrayExists := true,
      pollAfterLaunch := some 1 }
    { result := false, downloadAttempted := true, launched := true, launchCount := 1 }
    1 (by decide) rfl rfl

/-- Claim C9: the Fetcher's filename choice always is one of the two known
artifacts; the mapped architectures `x86_64`/`x64` select the amd64 artifact
and `aarch64`/`arm64` the arm64 artifact; and any machine string whose
lowercasing is outside `arch_map` falls back to the default amd64 artifact. -/
theorem claim_C9 :
    (∀ m : String, xray_filename m = "Xray-linux-64.zip" ∨
      xray_filename m = "Xray-linux-arm64-v8a.zip") ∧
    xray_filename "x86_64" = "Xray-linux-64.zip" ∧
    xray_filename "x64" = "Xray-linux-64.zip" ∧
    xray_filename "aarch64" = "Xray-linux-arm64-v8a.zip" ∧
    xray_filename "arm64" = "Xray-linux-arm64-v8a.zip" ∧
    ∀ m : String, arch_map (pyLower m) = none →
      xray_filename m = "Xray-linux-64.zip" := by
  refine ⟨?_, by decide, by decide, by decide, by decide, ?_⟩
  · intro m
    unfold xray_filename
    split
    · exact Or.inl rfl
    · exact Or.inr rfl
  · intro m hm
    simp [xray_filename, xray_arch, hm]

/-- Claim C9, witness: an architecture string outside the map falls back to
the amd64 artifact. -/
theorem claim_C9_witness : xray_filename "riscv64" = "Xray-linux-64.zip" :=
  claim_C9.2.2.2.2.2 "riscv64" (by decide)

/-- Claim C10: even with the host environment detected, when `SERVER_PORT` is
absent or the string `"0"`, `start` returns `False` before the download is
attempted and without ever launching a child. -/
theorem claim_C10 (env : Env) (w : World)
    (hdet : (detect_environment env).1 = true)
    (hp : env "SERVER_PORT" = none ∨ env "SERVER_PORT" = some "0") :
    start env w =
      some { result := false, downloadAttempted := false, launched := false,
             launchCount := 0 } := by
  have hport : server_port_value env = some 0 := by
    rcases hp with h | h
    · simp [server_port_value, h]
    · unfold server_port_value
      rw [h]
      decide
  simp [start, hdet, hport]

/-- Claim C10, witness: environment with only `SERVER_MEMORY` set — detected,
yet `SERVER_PORT` is absent, so `start` fails before downloading. -/
theorem claim_C10_witness :
    start env_mem_only
      { downloadOk := true, extractOk := true, xrayExists := true,
        pollAfterLaunch := none } =
    some { result := false, downloadAttempted := false, launched := false,
           launchCount := 0 } :=
  claim_C10 env_mem_only _ (by decide) (Or.inl (by decide))

end PyXrayVls
